import Mathlib

/-!
Verification of the TTS voice-catalog repository's audio pipeline and
session controllers.

The development shallowly embeds the audio codec and the two TTS session
controllers of the repository:

* `decodeAudioData` / `createWavFile` (components/TtsTool.tsx): PCM16
  decoding into a normalized float sample buffer, and WAV encoding.
* the `TtsTool` modal controller (components/TtsTool.tsx): `handleGenerate`,
  `stopAudio`, `playBuffer`, and the generate button's disabled guard.
* the `AiTtsPreview` controller (components/AiTtsPreview.tsx): `handlePlay`,
  `stopAudio`, and the `isMountedRef` liveness flag.

Modelling conventions:
* JS float samples are modelled as rationals; every numeric operation the
  source performs on samples (division by 32768, scaling by 32767/32768,
  clamping, truncation) is exact in double precision on the int16-derived
  values involved, so the rational model is faithful.
* byte buffers are `List ℕ` with values < 256 (a `% 256` is applied where
  a byte is read, mirroring the `Uint8Array` typing of the source);
* `DataView.setInt16` semantics (truncate toward zero, wrap modulo 2^16)
  are modelled by `ratTrunc` and `wrap16`;
* `new Int16Array(data.buffer)` throws when the byte length is odd, hence
  `bytesToInt16s` is `Option`-valued;
* asynchronous functions are run to completion as pure transition
  functions `state → response → state × effects`; the emitted `Effect`
  list records the calls made to external collaborators (network
  synthesis, platform speech engine, audio source nodes).
-/

/-- Truncation toward zero of a rational number, as performed by the
JavaScript ToIntegerOrInfinity conversion inside `DataView.setInt16`. -/
def ratTrunc (q : ℚ) : ℤ := if q < 0 then ⌈q⌉ else ⌊q⌋

/-- The clamp `Math.max(-1, Math.min(1, x))` from the sample-writing loop of
`createWavFile`. -/
def clampSample (v : ℚ) : ℚ := max (-1) (min 1 v)

/-- Wrapping of an integer into signed 16-bit range, the final step of the
JavaScript ToInt16 conversion applied by `DataView.setInt16`. -/
def wrap16 (z : ℤ) : ℤ := (z + 32768) % 65536 - 32768

/-- The int16 value stored for one float sample by the sample-writing loop of
`createWavFile`:
`sample = Math.max(-1, Math.min(1, v)); sample = sample < 0 ? sample * 0x8000
: sample * 0x7FFF; view.setInt16(pos, sample, true)`. -/
def encodeSample (v : ℚ) : ℤ :=
  wrap16 (if clampSample v < 0 then ratTrunc (clampSample v * 32768)
          else ratTrunc (clampSample v * 32767))

/-- Modelled from the spec: the encoding map as the spec states it — each
float sample is clamped to [-1, 1], negative values are scaled by 32768 and
non-negative values by 32767, and the result is truncated to a 16-bit signed
integer with no further wrapping mentioned. Used to compare with the
source-derived `encodeSample`. -/
def encodeSampleSpec (v : ℚ) : ℤ :=
  if clampSample v < 0 then ratTrunc (clampSample v * 32768)
  else ratTrunc (clampSample v * 32767)

/-- The two little-endian bytes written for one int16 value by
`view.setInt16(pos, sample, true)`. -/
def int16ToBytes (z : ℤ) : List ℕ :=
  [(z % 65536).toNat % 256, (z % 65536).toNat / 256]

/-- Reading one little-endian int16 out of a byte pair, as `Int16Array`
does over the decoded base64 buffer. -/
def toInt16 (u : ℕ) : ℤ :=
  if u % 65536 < 32768 then ((u % 65536 : ℕ) : ℤ) else ((u % 65536 : ℕ) : ℤ) - 65536

/-- The int16 view `new Int16Array(data.buffer)` of a byte buffer.  The
constructor throws a RangeError when the byte length is not a multiple of 2,
hence the `Option`. -/
def bytesToInt16s : List ℕ → Option (List ℤ)
  | [] => some []
  | [_] => none
  | b0 :: b1 :: rest =>
    (bytesToInt16s rest).map (fun l => toInt16 (b0 % 256 + 256 * (b1 % 256)) :: l)

/-- The normalized multi-channel sample buffer produced by
`ctx.createBuffer(numChannels, frameCount, sampleRate)` and filled by
`decodeAudioData` (and consumed by `createWavFile`, where `frames` is
`audioBuffer.length`). -/
structure SampleBuffer where
  sampleRate : ℕ
  frames : ℕ
  channels : List (List ℚ)
  deriving DecidableEq

/-- The `decodeAudioData` helper of TtsTool.tsx / AiTtsPreview.tsx:
reinterpret the bytes as little-endian int16s, take
`frameCount = dataInt16.length / numChannels` (JavaScript produces a
fractional count here when the division is not exact; `createBuffer`
truncates it and the one out-of-bounds write of the final loop iteration is
silently dropped by the `Float32Array`, so the effective frame count is the
floor), de-interleave, and scale each int16 by `1 / 32768.0`.
`createBuffer` rejects a zero channel count. -/
def decodeAudioData (data : List ℕ) (sampleRate : ℕ) (numChannels : ℕ) :
    Option SampleBuffer :=
  if numChannels = 0 then none else
  match bytesToInt16s data with
  | none => none
  | some ints =>
    some { sampleRate := sampleRate
           frames := ints.length / numChannels
           channels := (List.range numChannels).map (fun ch =>
             (List.range (ints.length / numChannels)).map (fun i =>
               ((ints.getD (i * numChannels + ch) 0 : ℤ) : ℚ) / 32768)) }

/-- The frame-major, channel-interleaved int16 sequence produced by the
sample-writing loop of `createWavFile` (`while (pos < length)` over frames,
inner loop over channels). -/
def interleavedInt16s (b : SampleBuffer) : List ℤ :=
  (List.range b.frames).flatMap (fun i =>
    b.channels.map (fun ch => encodeSample (ch.getD i 0)))

/-- The PCM16 data bytes of the WAV file: the interleaved int16s, each
written little-endian. -/
def wavDataBytes (b : SampleBuffer) : List ℕ :=
  (interleavedInt16s b).flatMap int16ToBytes

/-- The `writeString` helper of `createWavFile`: one byte per character,
`charCodeAt`. -/
def writeStringBytes (s : String) : List ℕ := s.data.map Char.toNat

/-- Little-endian bytes of `DataView.setUint16`. -/
def uint16LE (n : ℕ) : List ℕ := [n % 256, n / 256 % 256]

/-- Little-endian bytes of `DataView.setUint32`. -/
def uint32LE (n : ℕ) : List ℕ :=
  [n % 256, n / 256 % 256, n / 65536 % 256, n / 16777216 % 256]

/-- The full byte sequence built by `createWavFile`: the 44-byte RIFF/WAVE
header written field by field, followed by the interleaved PCM16 data. -/
def createWavFile (b : SampleBuffer) : List ℕ :=
  writeStringBytes "RIFF" ++
  uint32LE (b.frames * b.channels.length * 2 + 44 - 8) ++
  writeStringBytes "WAVE" ++
  writeStringBytes "fmt " ++
  uint32LE 16 ++
  uint16LE 1 ++
  uint16LE b.channels.length ++
  uint32LE b.sampleRate ++
  uint32LE (b.sampleRate * b.channels.length * 2) ++
  uint16LE (b.channels.length * 2) ++
  uint16LE 16 ++
  writeStringBytes "data" ++
  uint32LE (b.frames * b.channels.length * 2 + 44 - 40 - 4) ++
  wavDataBytes b

/-- A standard little-endian 16-bit reader, used to state that the header
fields written by `createWavFile` are recoverable by an independent WAV
parser. -/
def readU16 (l : List ℕ) (off : ℕ) : ℕ := l.getD off 0 + 256 * l.getD (off + 1) 0

/-- A standard little-endian 32-bit reader. -/
def readU32 (l : List ℕ) (off : ℕ) : ℕ :=
  l.getD off 0 + 256 * l.getD (off + 1) 0 + 65536 * l.getD (off + 2) 0 +
    16777216 * l.getD (off + 3) 0

theorem wrap16_bounds (z : ℤ) : -32768 ≤ wrap16 z ∧ wrap16 z ≤ 32767 := by
  unfold wrap16; omega

theorem wrap16_eq_self (z : ℤ) (h1 : -32768 ≤ z) (h2 : z ≤ 32767) : wrap16 z = z := by
  unfold wrap16; omega

theorem encodeSample_bounds (v : ℚ) :
    -32768 ≤ encodeSample v ∧ encodeSample v ≤ 32767 := by
  unfold encodeSample; exact wrap16_bounds _

theorem toInt16_bounds (u : ℕ) : -32768 ≤ toInt16 u ∧ toInt16 u ≤ 32767 := by
  unfold toInt16; omega

theorem toInt16_int16ToBytes (z : ℤ) (h1 : -32768 ≤ z) (h2 : z ≤ 32767) :
    toInt16 ((z % 65536).toNat % 256 +
      256 * ((z % 65536).toNat / 256 % 256)) = z := by
  unfold toInt16; omega

theorem bytesToInt16s_int16ToBytes_append (z : ℤ) (h1 : -32768 ≤ z)
    (h2 : z ≤ 32767) (rest : List ℕ) :
    bytesToInt16s (int16ToBytes z ++ rest) =
      (bytesToInt16s rest).map (fun l => z :: l) := by
  have hz := toInt16_int16ToBytes z h1 h2
  cases rest with
  | nil => simp [int16ToBytes, bytesToInt16s, hz]
  | cons c cs => simp [int16ToBytes, bytesToInt16s, hz]

theorem bytesToInt16s_flatMap (l : List ℤ)
    (h : ∀ z ∈ l, -32768 ≤ z ∧ z ≤ 32767) :
    bytesToInt16s (l.flatMap int16ToBytes) = some l := by
  induction l with
  | nil => rfl
  | cons z zs ih =>
    have hz := h z (by simp)
    rw [List.flatMap_cons, bytesToInt16s_int16ToBytes_append z hz.1 hz.2,
      ih (fun w hw => h w (by simp [hw]))]
    rfl

theorem clampSample_quant (n : ℤ) (h1 : -32768 ≤ n) (h2 : n ≤ 32767) :
    clampSample ((n : ℚ) / 32768) = (n : ℚ) / 32768 := by
  have hub : (n : ℚ) / 32768 ≤ 1 := by
    rw [div_le_one (by norm_num)]
    exact_mod_cast h2.trans (by norm_num)
  have hlb : (-1 : ℚ) ≤ (n : ℚ) / 32768 := by
    rw [le_div_iff₀ (by norm_num : (0:ℚ) < 32768)]
    have hc : ((-32768 : ℤ) : ℚ) ≤ (n : ℚ) := by exact_mod_cast h1
    push_cast at hc
    linarith
  unfold clampSample
  rw [min_eq_right hub, max_eq_right hlb]

theorem encodeSample_quant (n : ℤ) (h1 : -32768 ≤ n) (h2 : n ≤ 32767) :
    encodeSample ((n : ℚ) / 32768) = if 1 ≤ n then n - 1 else n := by
  unfold encodeSample
  rw [clampSample_quant n h1 h2]
  by_cases hn : (1 : ℤ) ≤ n
  · have hnn : (0 : ℚ) ≤ (n : ℚ) / 32768 := by
      apply div_nonneg
      · exact_mod_cast (by omega : (0:ℤ) ≤ n)
      · norm_num
    have hnn2 : (0 : ℚ) ≤ (n : ℚ) / 32768 * 32767 := by
      apply mul_nonneg hnn
      norm_num
    rw [if_neg (not_lt.mpr hnn), if_pos hn]
    have harg : (n : ℚ) / 32768 * 32767 = ((n * 32767 : ℤ) : ℚ) / ((32768 : ℕ) : ℚ) := by
      push_cast
      ring
    have htr : ratTrunc ((n : ℚ) / 32768 * 32767) = (n * 32767) / ((32768 : ℕ) : ℤ) := by
      unfold ratTrunc
      rw [if_neg (not_lt.mpr hnn2), harg, Rat.floor_intCast_div_natCast]
    rw [htr, wrap16_eq_self _ (by omega) (by omega)]
    omega
  · by_cases hn0 : n = 0
    · subst hn0
      have h0 : ((0 : ℤ) : ℚ) / 32768 = 0 := by norm_num
      rw [h0]
      have hlt : ¬ ((0 : ℚ) < 0) := by norm_num
      rw [if_neg hlt]
      unfold ratTrunc
      norm_num
      decide
    · have hneg : n < 0 := by omega
      have hnegq : (n : ℚ) / 32768 < 0 := by
        apply div_neg_of_neg_of_pos
        · exact_mod_cast hneg
        · norm_num
      rw [if_pos hnegq, if_neg hn]
      have harg : (n : ℚ) / 32768 * 32768 = (n : ℚ) := by
        field_simp
      rw [harg]
      unfold ratTrunc
      rw [if_pos (by exact_mod_cast hneg), Int.ceil_intCast,
        wrap16_eq_self n h1 h2]

theorem length_flatMap_int16ToBytes (l : List ℤ) :
    (l.flatMap int16ToBytes).length = 2 * l.length := by
  induction l with
  | nil => rfl
  | cons z zs ih => simp [int16ToBytes, ih]; omega

theorem length_flatMap_const (l : List ℕ) (f : ℕ → List ℤ) (C : ℕ)
    (hC : ∀ a ∈ l, (f a).length = C) : (l.flatMap f).length = l.length * C := by
  induction l with
  | nil => simp
  | cons x xs ih =>
    rw [List.flatMap_cons, List.length_append, hC x (by simp),
      ih (fun a ha => hC a (by simp [ha])), List.length_cons]
    ring

theorem length_interleavedInt16s (b : SampleBuffer) :
    (interleavedInt16s b).length = b.frames * b.channels.length := by
  unfold interleavedInt16s
  rw [length_flatMap_const _ _ b.channels.length (fun a _ => List.length_map _ _),
    List.length_range]

theorem getD_flatMap_const (l : List ℕ) (f : ℕ → List ℤ) (C : ℕ)
    (hC : ∀ a ∈ l, (f a).length = C) (i c : ℕ) (hi : i < l.length) (hc : c < C) :
    (l.flatMap f).getD (i * C + c) 0 = (f (l.getD i 0)).getD c 0 := by
  induction l generalizing i with
  | nil => simp at hi
  | cons x xs ih =>
    rw [List.flatMap_cons]
    cases i with
    | zero =>
      have hx : c < (f x).length := by rw [hC x (by simp)]; exact hc
      rw [Nat.zero_mul, Nat.zero_add]
      rw [List.getD_eq_getElem?_getD, List.getElem?_append_left hx,
        ← List.getD_eq_getElem?_getD]
      simp
    | succ j =>
      have hxlen : (f x).length = C := hC x (by simp)
      have hge : (f x).length ≤ (j + 1) * C + c := by
        rw [hxlen]
        calc C = 1 * C := (Nat.one_mul C).symm
        _ ≤ (j + 1) * C + c := by
          have : 1 * C ≤ (j + 1) * C := Nat.mul_le_mul_right C (by omega)
          omega
      rw [List.getD_eq_getElem?_getD, List.getElem?_append_right hge,
        ← List.getD_eq_getElem?_getD]
      have hidx : (j + 1) * C + c - (f x).length = j * C + c := by
        rw [hxlen]
        have : (j + 1) * C = j * C + C := by ring
        omega
      rw [hidx, ih (fun a ha => hC a (by simp [ha])) j (by simpa using hi)]
      simp

theorem bytesToInt16s_even (l : List ℕ) (h : l.length % 2 = 0) :
    ∃ ints, bytesToInt16s l = some ints ∧ ints.length = l.length / 2 := by
  induction l using bytesToInt16s.induct with
  | case1 => exact ⟨[], rfl, rfl⟩
  | case2 b => simp at h
  | case3 b0 b1 rest ih =>
    simp only [List.length_cons] at h
    obtain ⟨ints, hi, hl⟩ := ih (by omega)
    refine ⟨toInt16 (b0 % 256 + 256 * (b1 % 256)) :: ints, ?_, ?_⟩
    · simp [bytesToInt16s, hi]
    · simp only [List.length_cons, hl]
      omega

theorem bytesToInt16s_mem_bounds (l : List ℕ) (ints : List ℤ)
    (h : bytesToInt16s l = some ints) :
    ∀ z ∈ ints, -32768 ≤ z ∧ z ≤ 32767 := by
  induction l using bytesToInt16s.induct generalizing ints with
  | case1 =>
    simp only [bytesToInt16s] at h
    cases h
    simp
  | case2 b => simp [bytesToInt16s] at h
  | case3 b0 b1 rest ih =>
    simp only [bytesToInt16s] at h
    cases hrest : bytesToInt16s rest with
    | none => rw [hrest] at h; simp at h
    | some tail =>
      rw [hrest] at h
      simp only [Option.map_some'] at h
      cases h
      intro z hz
      rcases List.mem_cons.mp hz with hz | hz
      · subst hz; exact toInt16_bounds _
      · exact ih tail hrest z hz

theorem interleavedInt16s_mem_bounds (b : SampleBuffer) :
    ∀ z ∈ interleavedInt16s b, -32768 ≤ z ∧ z ≤ 32767 := by
  intro z hz
  unfold interleavedInt16s at hz
  rw [List.mem_flatMap] at hz
  obtain ⟨i, _, hz⟩ := hz
  rw [List.mem_map] at hz
  obtain ⟨ch, _, hz⟩ := hz
  rw [← hz]
  exact encodeSample_bounds _

theorem interleavedInt16s_getD (b : SampleBuffer) (i c : ℕ)
    (hi : i < b.frames) (hc : c < b.channels.length) :
    (interleavedInt16s b).getD (i * b.channels.length + c) 0 =
      encodeSample ((b.channels.getD c []).getD i 0) := by
  unfold interleavedInt16s
  rw [getD_flatMap_const _ _ b.channels.length (fun a _ => List.length_map _ _) i c
    (by rwa [List.length_range]) hc]
  have hri : (List.range b.frames).getD i 0 = i := by
    rw [List.getD_eq_getElem _ _ (by rwa [List.length_range]), List.getElem_range]
  rw [hri]
  rw [List.getD_eq_getElem _ _ (by rwa [List.length_map]), List.getElem_map,
    List.getD_eq_getElem _ _ hc]

theorem decode_wavDataBytes (b : SampleBuffer) (hC : b.channels.length ≠ 0)
    (hlen : ∀ ch ∈ b.channels, ch.length = b.frames) :
    decodeAudioData (wavDataBytes b) b.sampleRate b.channels.length =
      some { sampleRate := b.sampleRate
             frames := b.frames
             channels := b.channels.map (fun ch => ch.map (fun v =>
               ((encodeSample v : ℤ) : ℚ) / 32768)) } := by
  have hints : bytesToInt16s (wavDataBytes b) = some (interleavedInt16s b) :=
    bytesToInt16s_flatMap _ (interleavedInt16s_mem_bounds b)
  unfold decodeAudioData
  rw [if_neg hC, hints]
  have hfr : (interleavedInt16s b).length / b.channels.length = b.frames := by
    rw [length_interleavedInt16s, Nat.mul_div_cancel _ (Nat.pos_of_ne_zero hC)]
  simp only [hfr, Option.some_inj, SampleBuffer.mk.injEq, true_and]
  apply List.ext_getElem
  · rw [List.length_map, List.length_range, List.length_map]
  · intro c h1 h2
    rw [List.length_map, List.length_range] at h1
    rw [List.getElem_map, List.getElem_range, List.getElem_map]
    apply List.ext_getElem
    · rw [List.length_map, List.length_range, List.length_map]
      exact (hlen _ (List.getElem_mem _)).symm
    · intro i hi1 hi2
      rw [List.length_map, List.length_range] at hi1
      rw [List.getElem_map, List.getElem_range, List.getElem_map]
      rw [interleavedInt16s_getD b i c hi1 h1]
      have hcc : b.channels.getD c [] = b.channels[c] := List.getD_eq_getElem _ _ h1
      have hclen : i < (b.channels[c]).length := by
        rw [hlen _ (List.getElem_mem _)]
        exact hi1
      rw [hcc, List.getD_eq_getElem _ _ hclen]

/-- The round-tripped value of one quantized sample: non-positive samples are
preserved, positive samples lose exactly one quantization step. -/
theorem encodeSample_div_quant (n : ℤ) (h1 : -32768 ≤ n) (h2 : n ≤ 32767) :
    ((encodeSample ((n : ℚ) / 32768) : ℤ) : ℚ) / 32768 =
      (if 0 < (n : ℚ) / 32768 then (n : ℚ) / 32768 - 1 / 32768
       else (n : ℚ) / 32768) := by
  rw [encodeSample_quant n h1 h2]
  by_cases hn : (1 : ℤ) ≤ n
  · rw [if_pos hn, if_pos (by
      apply div_pos _ (by norm_num : (0:ℚ) < 32768)
      exact_mod_cast (by omega : (0:ℤ) < n))]
    push_cast
    ring
  · rw [if_neg hn, if_neg (by
      rw [not_lt]
      apply div_nonpos_of_nonpos_of_nonneg _ (by norm_num : (0:ℚ) ≤ 32768)
      exact_mod_cast (by omega : n ≤ (0:ℤ)))]

/-- C1 (counterexample): the PCM16 round trip is not the identity on
16-bit-quantized buffers.  The single-sample buffer holding 1/32768 encodes
(via clamp, non-negative scaling by 32767, truncation) to the int16 0 and
decodes back to 0, not to 1/32768. -/
theorem c1_pcm_roundtrip_counterexample :
    decodeAudioData
        (wavDataBytes { sampleRate := 24000, frames := 1,
                        channels := [[(1 : ℚ) / 32768]] }) 24000 1 ≠
      some { sampleRate := 24000, frames := 1, channels := [[(1 : ℚ) / 32768]] } := by
  intro h
  have he : encodeSample ((1 : ℚ) / 32768) = 0 := by
    have h1 := encodeSample_quant 1 (by norm_num) (by norm_num)
    norm_num at h1
    exact h1
  have hd := decode_wavDataBytes
    { sampleRate := 24000, frames := 1, channels := [[(1 : ℚ) / 32768]] }
    (by simp) (by simp)
  simp only [he, List.map_cons, List.map_nil, List.length_singleton] at hd
  rw [hd] at h
  simp only [Option.some_inj, SampleBuffer.mk.injEq, true_and,
    List.cons.injEq, and_true] at h
  norm_num at h

/-- C1 (amended): for every SampleBuffer whose samples are quantized to
16-bit precision (each sample is n/32768 with n in [-32768, 32767]),
encoding through the sample-writing loop of createWavFile and decoding back
through decodeAudioData preserves the sample rate, the frame count, the
channel count, and every non-positive sample exactly, while every positive
sample n/32768 comes back as (n-1)/32768 — one quantization step low, the
consequence of scaling non-negative samples by 32767 where decoding divides
by 32768. -/
theorem c1_pcm_roundtrip_amended (b : SampleBuffer) (hC : b.channels.length ≠ 0)
    (hlen : ∀ ch ∈ b.channels, ch.length = b.frames)
    (hq : ∀ ch ∈ b.channels, ∀ v ∈ ch,
      ∃ n : ℤ, -32768 ≤ n ∧ n ≤ 32767 ∧ v = (n : ℚ) / 32768) :
    decodeAudioData (wavDataBytes b) b.sampleRate b.channels.length =
      some { sampleRate := b.sampleRate
             frames := b.frames
             channels := b.channels.map (fun ch => ch.map (fun v =>
               if 0 < v then v - 1 / 32768 else v)) } := by
  rw [decode_wavDataBytes b hC hlen]
  simp only [Option.some_inj, SampleBuffer.mk.injEq, true_and]
  apply List.map_congr_left
  intro ch hch
  apply List.map_congr_left
  intro v hv
  obtain ⟨n, hn1, hn2, rfl⟩ := hq ch hch v hv
  exact encodeSample_div_quant n hn1 hn2

/-- Witness for C1 (amended): the concrete mono buffer with samples
1/32768, 0 and -1 round-trips to 0, 0 and -1. -/
theorem c1_pcm_roundtrip_amended_witness :
    decodeAudioData
        (wavDataBytes { sampleRate := 24000, frames := 3,
                        channels := [[(1 : ℚ) / 32768, 0, -1]] }) 24000 1 =
      some { sampleRate := 24000, frames := 3, channels := [[(0 : ℚ), 0, -1]] } := by
  have h := c1_pcm_roundtrip_amended
    { sampleRate := 24000, frames := 3, channels := [[(1 : ℚ) / 32768, 0, -1]] }
    (by simp) (by simp)
    (by
      intro ch hch v hv
      simp only [List.mem_singleton] at hch
      subst hch
      simp only [List.mem_cons, List.not_mem_nil, or_false] at hv
      rcases hv with rfl | rfl | rfl
      · exact ⟨1, by norm_num, by norm_num, by norm_num⟩
      · exact ⟨0, by norm_num, by norm_num, by norm_num⟩
      · exact ⟨-32768, by norm_num, by norm_num, by norm_num⟩)
  simp only [List.map_cons, List.map_nil, List.length_singleton] at h
  rw [h]
  have e1 : (if (0 : ℚ) < 1 / 32768 then (1 : ℚ) / 32768 - 1 / 32768
             else (1 : ℚ) / 32768) = 0 := by norm_num
  have e2 : (if (0 : ℚ) < 0 then (0 : ℚ) - 1 / 32768 else (0 : ℚ)) = 0 := by norm_num
  have e3 : (if (0 : ℚ) < -1 then (-1 : ℚ) - 1 / 32768 else (-1 : ℚ)) = -1 := by
    norm_num
  rw [e1, e2, e3]

/-- C2: a byte buffer whose int16 count is not a multiple of the channel
count decodes to a buffer with frameCount = floor(int16count / channelCount);
the trailing partial frame is silently dropped (decoding still succeeds). -/
theorem c2_decode_truncates_partial_frame (bytes : List ℕ) (sampleRate : ℕ)
    (numChannels : ℕ) (heven : bytes.length % 2 = 0) (hC : numChannels ≠ 0)
    (_hpart : (bytes.length / 2) % numChannels ≠ 0) :
    (decodeAudioData bytes sampleRate numChannels).map SampleBuffer.frames =
      some (bytes.length / 2 / numChannels) := by
  obtain ⟨ints, hi, hl⟩ := bytesToInt16s_even bytes heven
  unfold decodeAudioData
  rw [if_neg hC, hi]
  simp [hl]

/-- Witness for C2: six bytes are three int16s; with two channels the
decoded frame count is 1 and the trailing int16 is dropped. -/
theorem c2_decode_truncates_partial_frame_witness :
    (decodeAudioData [0, 0, 0, 0, 0, 0] 24000 2).map SampleBuffer.frames =
      some 1 := by
  have h := c2_decode_truncates_partial_frame [0, 0, 0, 0, 0, 0] 24000 2
    (by decide) (by decide) (by decide)
  simpa using h

theorem wavDataBytes_length (b : SampleBuffer) :
    (wavDataBytes b).length = b.frames * b.channels.length * 2 := by
  unfold wavDataBytes
  rw [length_flatMap_int16ToBytes, length_interleavedInt16s]
  ring

/-- C3: createWavFile produces 44 + frameCount x channels x 2 bytes: a RIFF
/ WAVE header whose little-endian fields (read back with an independent
little-endian reader) are RIFF size = total - 8, fmt chunk size 16, PCM
format code 1, the channel count, the sample rate, byte rate =
sampleRate x channels x 2, block align = channels x 2, bits-per-sample 16,
and a data chunk of size frameCount x channels x 2 followed by exactly the
interleaved PCM16 sample bytes. -/
theorem c3_wav_header_layout (b : SampleBuffer)
    (hsr : b.sampleRate < 4294967296)
    (hbr : b.sampleRate * b.channels.length * 2 < 4294967296)
    (hch : b.channels.length < 32768)
    (hdata : b.frames * b.channels.length * 2 + 36 < 4294967296) :
    (createWavFile b).length = 44 + b.frames * b.channels.length * 2 ∧
    (createWavFile b).take 4 = [82, 73, 70, 70] ∧
    readU32 (createWavFile b) 4 = b.frames * b.channels.length * 2 + 36 ∧
    ((createWavFile b).drop 8).take 4 = [87, 65, 86, 69] ∧
    ((createWavFile b).drop 12).take 4 = [102, 109, 116, 32] ∧
    readU32 (createWavFile b) 16 = 16 ∧
    readU16 (createWavFile b) 20 = 1 ∧
    readU16 (createWavFile b) 22 = b.channels.length ∧
    readU32 (createWavFile b) 24 = b.sampleRate ∧
    readU32 (createWavFile b) 28 = b.sampleRate * b.channels.length * 2 ∧
    readU16 (createWavFile b) 32 = b.channels.length * 2 ∧
    readU16 (createWavFile b) 34 = 16 ∧
    ((createWavFile b).drop 36).take 4 = [100, 97, 116, 97] ∧
    readU32 (createWavFile b) 40 = b.frames * b.channels.length * 2 ∧
    (createWavFile b).drop 44 = wavDataBytes b ∧
    (wavDataBytes b).length = b.frames * b.channels.length * 2 := by
  have hwav := wavDataBytes_length b
  have hR : writeStringBytes "RIFF" = [82, 73, 70, 70] := by decide
  have hW : writeStringBytes "WAVE" = [87, 65, 86, 69] := by decide
  have hF : writeStringBytes "fmt " = [102, 109, 116, 32] := by decide
  have hD : writeStringBytes "data" = [100, 97, 116, 97] := by decide
  have hcw : createWavFile b =
      82 :: 73 :: 70 :: 70 ::
      ((b.frames * b.channels.length * 2 + 44 - 8) % 256) ::
      ((b.frames * b.channels.length * 2 + 44 - 8) / 256 % 256) ::
      ((b.frames * b.channels.length * 2 + 44 - 8) / 65536 % 256) ::
      ((b.frames * b.channels.length * 2 + 44 - 8) / 16777216 % 256) ::
      87 :: 65 :: 86 :: 69 :: 102 :: 109 :: 116 :: 32 ::
      (16 % 256) :: (16 / 256 % 256) :: (16 / 65536 % 256) ::
      (16 / 16777216 % 256) ::
      (1 % 256) :: (1 / 256 % 256) ::
      (b.channels.length % 256) :: (b.channels.length / 256 % 256) ::
      (b.sampleRate % 256) :: (b.sampleRate / 256 % 256) ::
      (b.sampleRate / 65536 % 256) :: (b.sampleRate / 16777216 % 256) ::
      (b.sampleRate * b.channels.length * 2 % 256) ::
      (b.sampleRate * b.channels.length * 2 / 256 % 256) ::
      (b.sampleRate * b.channels.length * 2 / 65536 % 256) ::
      (b.sampleRate * b.channels.length * 2 / 16777216 % 256) ::
      (b.channels.length * 2 % 256) :: (b.channels.length * 2 / 256 % 256) ::
      (16 % 256) :: (16 / 256 % 256) ::
      100 :: 97 :: 116 :: 97 ::
      ((b.frames * b.channels.length * 2 + 44 - 40 - 4) % 256) ::
      ((b.frames * b.channels.length * 2 + 44 - 40 - 4) / 256 % 256) ::
      ((b.frames * b.channels.length * 2 + 44 - 40 - 4) / 65536 % 256) ::
      ((b.frames * b.channels.length * 2 + 44 - 40 - 4) / 16777216 % 256) ::
      wavDataBytes b := by
    unfold createWavFile
    rw [hR, hW, hF, hD]
    simp only [uint32LE, uint16LE, List.cons_append, List.nil_append]
  have g4 : (createWavFile b).getD 4 0 =
      (b.frames * b.channels.length * 2 + 44 - 8) % 256 := by rw [hcw]; rfl
  have g5 : (createWavFile b).getD 5 0 =
      (b.frames * b.channels.length * 2 + 44 - 8) / 256 % 256 := by rw [hcw]; rfl
  have g6 : (createWavFile b).getD 6 0 =
      (b.frames * b.channels.length * 2 + 44 - 8) / 65536 % 256 := by rw [hcw]; rfl
  have g7 : (createWavFile b).getD 7 0 =
      (b.frames * b.channels.length * 2 + 44 - 8) / 16777216 % 256 := by
    rw [hcw]; rfl
  have g16 : (createWavFile b).getD 16 0 = 16 % 256 := by rw [hcw]; rfl
  have g17 : (createWavFile b).getD 17 0 = 16 / 256 % 256 := by rw [hcw]; rfl
  have g18 : (createWavFile b).getD 18 0 = 16 / 65536 % 256 := by rw [hcw]; rfl
  have g19 : (createWavFile b).getD 19 0 = 16 / 16777216 % 256 := by rw [hcw]; rfl
  have g20 : (createWavFile b).getD 20 0 = 1 % 256 := by rw [hcw]; rfl
  have g21 : (createWavFile b).getD 21 0 = 1 / 256 % 256 := by rw [hcw]; rfl
  have g22 : (createWavFile b).getD 22 0 = b.channels.length % 256 := by
    rw [hcw]; rfl
  have g23 : (createWavFile b).getD 23 0 = b.channels.length / 256 % 256 := by
    rw [hcw]; rfl
  have g24 : (createWavFile b).getD 24 0 = b.sampleRate % 256 := by rw [hcw]; rfl
  have g25 : (createWavFile b).getD 25 0 = b.sampleRate / 256 % 256 := by
    rw [hcw]; rfl
  have g26 : (createWavFile b).getD 26 0 = b.sampleRate / 65536 % 256 := by
    rw [hcw]; rfl
  have g27 : (createWavFile b).getD 27 0 = b.sampleRate / 16777216 % 256 := by
    rw [hcw]; rfl
  have g28 : (createWavFile b).getD 28 0 =
      b.sampleRate * b.channels.length * 2 % 256 := by rw [hcw]; rfl
  have g29 : (createWavFile b).getD 29 0 =
      b.sampleRate * b.channels.length * 2 / 256 % 256 := by rw [hcw]; rfl
  have g30 : (createWavFile b).getD 30 0 =
      b.sampleRate * b.channels.length * 2 / 65536 % 256 := by rw [hcw]; rfl
  have g31 : (createWavFile b).getD 31 0 =
      b.sampleRate * b.channels.length * 2 / 16777216 % 256 := by rw [hcw]; rfl
  have g32 : (createWavFile b).getD 32 0 = b.channels.length * 2 % 256 := by
    rw [hcw]; rfl
  have g33 : (createWavFile b).getD 33 0 = b.channels.length * 2 / 256 % 256 := by
    rw [hcw]; rfl
  have g34 : (createWavFile b).getD 34 0 = 16 % 256 := by rw [hcw]; rfl
  have g35 : (createWavFile b).getD 35 0 = 16 / 256 % 256 := by rw [hcw]; rfl
  have g40 : (createWavFile b).getD 40 0 =
      (b.frames * b.channels.length * 2 + 44 - 40 - 4) % 256 := by rw [hcw]; rfl
  have g41 : (createWavFile b).getD 41 0 =
      (b.frames * b.channels.length * 2 + 44 - 40 - 4) / 256 % 256 := by
    rw [hcw]; rfl
  have g42 : (createWavFile b).getD 42 0 =
      (b.frames * b.channels.length * 2 + 44 - 40 - 4) / 65536 % 256 := by
    rw [hcw]; rfl
  have g43 : (createWavFile b).getD 43 0 =
      (b.frames * b.channels.length * 2 + 44 - 40 - 4) / 16777216 % 256 := by
    rw [hcw]; rfl
  refine ⟨?_, by rw [hcw]; rfl, ?_, by rw [hcw]; rfl, by rw [hcw]; rfl, ?_, ?_,
    ?_, ?_, ?_, ?_, ?_, by rw [hcw]; rfl, ?_, by rw [hcw]; rfl, hwav⟩
  · rw [hcw]
    simp only [List.length_cons, hwav]
    omega
  · unfold readU32
    rw [g4, g5, g6, g7]
    omega
  · unfold readU32
    rw [g16, g17, g18, g19]
  · unfold readU16
    rw [g20, g21]
  · unfold readU16
    rw [g22, g23]
    omega
  · unfold readU32
    rw [g24, g25, g26, g27]
    omega
  · unfold readU32
    rw [g28, g29, g30, g31]
    omega
  · unfold readU16
    rw [g32, g33]
    omega
  · unfold readU16
    rw [g34, g35]
  · unfold readU32
    rw [g40, g41, g42, g43]
    omega

/-- Witness for C3: the WAV file of a mono two-frame zero buffer has 48
bytes, channel-count field 1, sample-rate field 24000, and data size 4. -/
theorem c3_wav_header_layout_witness :
    (createWavFile { sampleRate := 24000, frames := 2,
                     channels := [[(0 : ℚ), 0]] }).length = 48 ∧
    readU16 (createWavFile { sampleRate := 24000, frames := 2,
                             channels := [[(0 : ℚ), 0]] }) 22 = 1 ∧
    readU32 (createWavFile { sampleRate := 24000, frames := 2,
                             channels := [[(0 : ℚ), 0]] }) 24 = 24000 ∧
    readU32 (createWavFile { sampleRate := 24000, frames := 2,
                             channels := [[(0 : ℚ), 0]] }) 40 = 4 := by
  have h := c3_wav_header_layout
    { sampleRate := 24000, frames := 2, channels := [[(0 : ℚ), 0]] }
    (by decide) (by decide) (by decide) (by decide)
  obtain ⟨h1, -, -, -, -, -, -, h22, h24, -, -, -, -, h40, -, -⟩ := h
  refine ⟨by simpa using h1, by simpa using h22, by simpa using h24,
    by simpa using h40⟩

theorem clampSample_mem (v : ℚ) : -1 ≤ clampSample v ∧ clampSample v ≤ 1 := by
  unfold clampSample
  constructor
  · exact le_max_left _ _
  · exact max_le (by norm_num) (min_le_left _ _)

theorem encodeSampleSpec_bounds (v : ℚ) :
    -32768 ≤ encodeSampleSpec v ∧ encodeSampleSpec v ≤ 32767 := by
  obtain ⟨hl, hu⟩ := clampSample_mem v
  unfold encodeSampleSpec ratTrunc
  by_cases hneg : clampSample v < 0
  · rw [if_pos hneg, if_pos (by nlinarith : clampSample v * 32768 < 0)]
    constructor
    · have hc : ((-32768 : ℤ) : ℚ) ≤ clampSample v * 32768 := by push_cast; nlinarith
      have := Int.ceil_mono hc
      rwa [Int.ceil_intCast] at this
    · have hc : clampSample v * 32768 ≤ ((0 : ℤ) : ℚ) := by push_cast; nlinarith
      have := Int.ceil_mono hc
      rw [Int.ceil_intCast] at this
      omega
  · rw [if_neg hneg]
    push_neg at hneg
    rw [if_neg (by push_neg; nlinarith : ¬ (clampSample v * 32767 < 0))]
    constructor
    · have hc : ((0 : ℤ) : ℚ) ≤ clampSample v * 32767 := by push_cast; nlinarith
      have := Int.floor_mono hc
      rw [Int.floor_intCast] at this
      omega
    · have hc : clampSample v * 32767 ≤ ((32767 : ℤ) : ℚ) := by push_cast; nlinarith
      have := Int.floor_mono hc
      rwa [Int.floor_intCast] at this

/-- The source encoder and the spec's description of it agree: the mod-2^16
wrap that `DataView.setInt16` performs is the identity on every value the
clamp-and-scale step can produce. -/
theorem encodeSample_eq_spec (v : ℚ) : encodeSample v = encodeSampleSpec v := by
  obtain ⟨h1, h2⟩ := encodeSampleSpec_bounds v
  unfold encodeSample
  unfold encodeSampleSpec at h1 h2 ⊢
  exact wrap16_eq_self _ h1 h2

theorem div32768_bounds (z : ℤ) (h1 : -32768 ≤ z) (h2 : z ≤ 32767) :
    -1 ≤ (z : ℚ) / 32768 ∧ (z : ℚ) / 32768 ≤ 32767 / 32768 := by
  have hc1 : ((-32768 : ℤ) : ℚ) ≤ (z : ℚ) := by exact_mod_cast h1
  have hc2 : (z : ℚ) ≤ ((32767 : ℤ) : ℚ) := by exact_mod_cast h2
  push_cast at hc1 hc2
  constructor
  · rw [le_div_iff₀ (by norm_num : (0:ℚ) < 32768)]
    linarith
  · rw [div_le_div_iff₀ (by norm_num : (0:ℚ) < 32768) (by norm_num : (0:ℚ) < 32768)]
    linarith

theorem ints_getD_bounds (l : List ℕ) (ints : List ℤ)
    (h : bytesToInt16s l = some ints) (k : ℕ) :
    -32768 ≤ ints.getD k 0 ∧ ints.getD k 0 ≤ 32767 := by
  by_cases hk : k < ints.length
  · rw [List.getD_eq_getElem _ _ hk]
    exact bytesToInt16s_mem_bounds l ints h _ (List.getElem_mem _)
  · rw [List.getD_eq_default _ _ (le_of_not_lt hk)]
    norm_num

theorem bytesToInt16s_getD (l : List ℕ) (ints : List ℤ)
    (h : bytesToInt16s l = some ints) (k : ℕ) (hk : k < ints.length) :
    ints.getD k 0 =
      toInt16 (l.getD (2 * k) 0 % 256 + 256 * (l.getD (2 * k + 1) 0 % 256)) := by
  induction l using bytesToInt16s.induct generalizing ints k with
  | case1 =>
    simp only [bytesToInt16s, Option.some_inj] at h
    subst h
    simp at hk
  | case2 b => simp [bytesToInt16s] at h
  | case3 b0 b1 rest ih =>
    simp only [bytesToInt16s] at h
    cases hrest : bytesToInt16s rest with
    | none => rw [hrest] at h; simp at h
    | some tail =>
      rw [hrest] at h
      simp only [Option.map_some'] at h
      cases h
      cases k with
      | zero => rfl
      | succ j =>
        simp only [List.length_cons, Nat.succ_lt_succ_iff] at hk
        have h2k : 2 * (j + 1) = 2 * j + 1 + 1 := by ring
        rw [List.getD_cons_succ, ih tail hrest j hk, h2k]
        rfl

theorem getD_map_range {A : Type} (n i : ℕ) (hi : i < n) (f : ℕ → A) (d : A) :
    ((List.range n).map f).getD i d = f i := by
  rw [List.getD_eq_getElem _ _ (by simpa using hi), List.getElem_map,
    List.getElem_range]

theorem decode_shape (data : List ℕ) (sr nCh : ℕ) (buf : SampleBuffer)
    (h : decodeAudioData data sr nCh = some buf) :
    ∃ ints, bytesToInt16s data = some ints ∧ nCh ≠ 0 ∧
      buf.sampleRate = sr ∧ buf.frames = ints.length / nCh ∧
      buf.channels = (List.range nCh).map (fun ch =>
        (List.range (ints.length / nCh)).map (fun i =>
          ((ints.getD (i * nCh + ch) 0 : ℤ) : ℚ) / 32768)) := by
  unfold decodeAudioData at h
  by_cases h0 : nCh = 0
  · rw [if_pos h0] at h
    cases h
  rw [if_neg h0] at h
  cases hbi : bytesToInt16s data with
  | none => rw [hbi] at h; cases h
  | some ints =>
    rw [hbi] at h
    simp only [Option.some_inj] at h
    subst h
    exact ⟨ints, rfl, h0, rfl, rfl, rfl⟩

theorem decode_sample_getD (data : List ℕ) (sr nCh : ℕ) (buf : SampleBuffer)
    (h : decodeAudioData data sr nCh = some buf) (ch i : ℕ)
    (hch : ch < buf.channels.length) (hi : i < buf.frames) :
    ∃ ints, bytesToInt16s data = some ints ∧
      i * nCh + ch < ints.length ∧
      (buf.channels.getD ch []).getD i 0 =
        ((ints.getD (i * nCh + ch) 0 : ℤ) : ℚ) / 32768 := by
  obtain ⟨ints, hbi, h0, hsr, hfr, hchan⟩ := decode_shape data sr nCh buf h
  rw [hchan, List.length_map, List.length_range] at hch
  rw [hfr] at hi
  refine ⟨ints, hbi, ?_, ?_⟩
  · have hmul : (i + 1) * nCh ≤ (ints.length / nCh) * nCh :=
      Nat.mul_le_mul_right nCh hi
    have hle : (ints.length / nCh) * nCh ≤ ints.length := Nat.div_mul_le_self _ _
    have hstep : (i + 1) * nCh = i * nCh + nCh := by ring
    omega
  · rw [hchan, getD_map_range nCh ch hch]
    rw [getD_map_range _ i hi]

theorem decode_sample_bounds (data : List ℕ) (sr nCh : ℕ) (buf : SampleBuffer)
    (h : decodeAudioData data sr nCh = some buf) (ch i : ℕ) :
    -1 ≤ (buf.channels.getD ch []).getD i 0 ∧
      (buf.channels.getD ch []).getD i 0 ≤ 32767 / 32768 := by
  obtain ⟨ints, hbi, h0, hsr, hfr, hchan⟩ := decode_shape data sr nCh buf h
  by_cases hch : ch < buf.channels.length
  · by_cases hi : i < buf.frames
    · obtain ⟨ints2, hbi2, hlt, hval⟩ :=
        decode_sample_getD data sr nCh buf h ch i hch hi
      rw [hbi] at hbi2
      cases hbi2
      rw [hval]
      obtain ⟨hb1, hb2⟩ := ints_getD_bounds data ints hbi (i * nCh + ch)
      exact div32768_bounds _ hb1 hb2
    · have hthis : (buf.channels.getD ch []).length ≤ i := by
        rw [hchan, List.length_map, List.length_range] at hch
        rw [hchan, getD_map_range nCh ch hch, List.length_map, List.length_range,
          ← hfr]
        omega
      rw [List.getD_eq_default _ _ hthis]
      norm_num
  · rw [List.getD_eq_default _ _ (le_of_not_lt hch),
      List.getD_eq_default _ _ (by simp : ([] : List ℚ).length ≤ i)]
    norm_num

/-- C5: decoding maps each little-endian signed 16-bit sample s to s/32768,
so decoded samples lie in [-1, 32767/32768]; encoding clamps to [-1, 1],
scales negative samples by 32768 and non-negative samples by 32767 and
truncates toward zero exactly as the spec describes it (the mod-2^16 wrap the
source's setInt16 additionally performs is the identity on every value the
clamp can produce), the stored int16 stays in range, and the little-endian
byte pair written for it reads back as the same int16. -/
theorem c5_codec_sample_maps (v : ℚ) (data : List ℕ) (sr nCh ch i : ℕ)
    (buf : SampleBuffer) (h : decodeAudioData data sr nCh = some buf)
    (hch : ch < buf.channels.length) (hi : i < buf.frames) :
    encodeSample v = encodeSampleSpec v ∧
    (-32768 ≤ encodeSample v ∧ encodeSample v ≤ 32767) ∧
    bytesToInt16s (int16ToBytes (encodeSample v)) = some [encodeSample v] ∧
    (-1 ≤ (buf.channels.getD ch []).getD i 0 ∧
      (buf.channels.getD ch []).getD i 0 ≤ 32767 / 32768) ∧
    (buf.channels.getD ch []).getD i 0 =
      ((toInt16 (data.getD (2 * (i * nCh + ch)) 0 % 256 +
        256 * (data.getD (2 * (i * nCh + ch) + 1) 0 % 256)) : ℤ) : ℚ) / 32768 := by
  obtain ⟨hb1, hb2⟩ := encodeSample_bounds v
  refine ⟨encodeSample_eq_spec v, ⟨hb1, hb2⟩, ?_, decode_sample_bounds data sr nCh buf h ch i, ?_⟩
  · have hp := bytesToInt16s_int16ToBytes_append (encodeSample v) hb1 hb2 []
    rw [List.append_nil] at hp
    rw [hp]
    rfl
  · obtain ⟨ints, hbi, hlt, hval⟩ := decode_sample_getD data sr nCh buf h ch i hch hi
    rw [hval, bytesToInt16s_getD data ints hbi _ hlt]

/-- Witness for C5: sample 3/2 (clamped to 1, stored as 32767) and the byte
pair [0, 128] (the int16 -32768, decoded to the sample -1). -/
theorem c5_codec_sample_maps_witness :
    encodeSample (3 / 2) = encodeSampleSpec (3 / 2) ∧
    (-32768 ≤ encodeSample (3 / 2) ∧ encodeSample (3 / 2) ≤ 32767) ∧
    bytesToInt16s (int16ToBytes (encodeSample (3 / 2))) =
      some [encodeSample (3 / 2)] ∧
    (-1 ≤ ((({ sampleRate := 24000, frames := 1, channels := [[(-1 : ℚ)]] }
        : SampleBuffer).channels.getD 0 []).getD 0 0) ∧
      ((({ sampleRate := 24000, frames := 1, channels := [[(-1 : ℚ)]] }
        : SampleBuffer).channels.getD 0 []).getD 0 0) ≤ 32767 / 32768) ∧
    ((({ sampleRate := 24000, frames := 1, channels := [[(-1 : ℚ)]] }
        : SampleBuffer).channels.getD 0 []).getD 0 0) =
      ((toInt16 ([0, 128].getD (2 * (0 * 1 + 0)) 0 % 256 +
        256 * ([0, 128].getD (2 * (0 * 1 + 0) + 1) 0 % 256)) : ℤ) : ℚ) / 32768 := by
  have hdec : decodeAudioData [0, 128] 24000 1 =
      some { sampleRate := 24000, frames := 1, channels := [[(-1 : ℚ)]] } := by
    have hb : bytesToInt16s [0, 128] = some [-32768] := by decide
    unfold decodeAudioData
    rw [hb]
    norm_num [List.range_succ]
  exact c5_codec_sample_maps (3 / 2) [0, 128] 24000 1 0 0
    { sampleRate := 24000, frames := 1, channels := [[(-1 : ℚ)]] }
    hdec (by decide) (by decide)

/-- The engine selector of TtsTool.tsx: the cloud AI engine or the
platform speech engine. -/
inductive TtsEngine
  | gemini
  | system
  deriving DecidableEq

/-- Lifecycle of an AudioBufferSourceNode: calling stop() on a node that was
never started throws InvalidStateError; stopping a started or stopped node
succeeds. -/
inductive NodeStatus
  | created
  | started
  | stopped
  deriving DecidableEq

/-- Model of `sourceNode.stop()`. -/
def nodeStop : NodeStatus → Except String NodeStatus
  | NodeStatus.created => Except.error "InvalidStateError"
  | NodeStatus.started => Except.ok NodeStatus.stopped
  | NodeStatus.stopped => Except.ok NodeStatus.stopped

/-- Calls made to external collaborators, recorded so that "no backend call
is made" is a statement about the emitted effect list. -/
inductive Effect
  | cloudRequest (script : String) (voice : String)
  | speakRequest (script : String)
  | speechCancel
  | sourceStop
  | sourceStart
  deriving DecidableEq

/-- Whether an effect only stops output (as opposed to starting playback or
issuing a synthesis request). -/
def isStopEffect : Effect → Bool
  | Effect.sourceStop => true
  | Effect.speechCancel => true
  | _ => false

/-- The possible outcomes of `await ai.models.generateContent(...)`: an
inline audio payload, a text-only part, an empty candidate list, or a
rejected promise carrying an error message. -/
inductive CloudResponse
  | audio (bytes : List ℕ)
  | textOnly (msg : String)
  | empty
  | reject (msg : String)
  deriving DecidableEq

/-- The shared word-limit constant `MAX_WORDS = 20000`. -/
def MAX_WORDS : ℕ := 20000

/-- The word counter `text.trim().split(/\s+/).filter(Boolean).length`:
whitespace-delimited tokens of the text, empty tokens excluded.  (Leading
and trailing whitespace only contribute empty tokens, which the filter
drops, so the trim needs no separate modelling.) -/
def wordCount (text : String) : ℕ :=
  ((text.data.splitOnP (fun c => c.isWhitespace)).filter (fun w => w ≠ [])).length

/-- The emptiness guard `!text.trim()`: the trimmed script is the empty
string exactly when every character is whitespace. -/
def isBlank (text : String) : Bool := text.data.all (fun c => c.isWhitespace)

/-- A script that is all whitespace has word count zero. -/
theorem wordCount_of_isBlank (t : String) (h : isBlank t = true) :
    wordCount t = 0 := by
  unfold wordCount
  unfold isBlank at h
  rw [List.all_eq_true] at h
  suffices hs : ∀ l : List Char, (∀ c ∈ l, c.isWhitespace = true) →
      ((l.splitOnP (fun c => c.isWhitespace)).filter (fun w => w ≠ [])).length = 0 by
    exact hs t.data (fun c hc => by simpa using h c hc)
  intro l hl
  induction l with
  | nil => rfl
  | cons c cs ih =>
    rw [List.splitOnP_cons, if_pos (by simpa using hl c (by simp)),
      List.filter_cons,
      show (decide ((([] : List Char)) ≠ [])) = false from rfl,
      if_neg Bool.false_ne_true]
    exact ih (fun x hx => hl x (by simp [hx]))

/-- A script with at least one word is not blank. -/
theorem not_isBlank_of_wordCount_pos (t : String) (h : 0 < wordCount t) :
    isBlank t = false := by
  cases hb : isBlank t with
  | false => rfl
  | true => rw [wordCount_of_isBlank t hb] at h; exact absurd h (by norm_num)

/-- The substring test `msg.includes(pattern)`. -/
def strIncludes (s pat : String) : Bool :=
  (List.range (s.data.length + 1)).any
    (fun k => ((s.data.drop k).take pat.data.length) == pat.data)

/-- The error-message normalization of TtsTool.tsx's catch block:
`let msg = err.message || "An unexpected error occurred."` followed by the
rewrite of the "not supported by the AudioOut model" backend message. -/
def toolErrorMessage (m : String) : String :=
  let m0 := if m = "" then "An unexpected error occurred." else m
  if strIncludes m0 "not supported by the AudioOut model" then
    "Script is too long for the AI engine. Use 'System Voice' for large texts."
  else m0

/-- The component-local state of the TtsTool modal: the script, the engine
selector, the selected cloud voice, the four status fields, the retained
generated buffer, the API-key capability flags (`hasApiKey` state and the
`process.env.API_KEY` environment constant), the lazily created audio
context, and the active source node. -/
structure ToolState where
  text : String
  engine : TtsEngine
  selectedVoiceName : String
  isPlaying : Bool
  isLoading : Bool
  error : Option String
  generatedAudio : Option SampleBuffer
  hasApiKey : Bool
  envApiKey : Bool
  audioCtx : Bool
  sourceNode : Option NodeStatus
  deriving DecidableEq

/-- `stopAudio` of TtsTool.tsx: for the gemini engine, try to stop the
source node (swallowing the InvalidStateError of a never-started node) and
clear the reference; for the system engine, cancel platform speech; in both
cases mark playback inactive. -/
def stopAudioTool (s : ToolState) : ToolState × List Effect :=
  match s.engine with
  | TtsEngine.gemini =>
    match s.sourceNode with
    | some n =>
      match nodeStop n with
      | Except.ok _ =>
        ({ s with sourceNode := none, isPlaying := false }, [Effect.sourceStop])
      | Except.error _ =>
        ({ s with sourceNode := none, isPlaying := false }, [])
    | none => ({ s with isPlaying := false }, [])
  | TtsEngine.system =>
    ({ s with isPlaying := false }, [Effect.speechCancel])

/-- `playBuffer` of TtsTool.tsx: bail out if no audio context exists,
otherwise stop any current output, wire up a fresh source node, start it and
mark playback active. -/
def playBufferTool (s : ToolState) : ToolState × List Effect :=
  if s.audioCtx = false then (s, [])
  else
    let p := stopAudioTool s
    ({ p.1 with sourceNode := some NodeStatus.started, isPlaying := true },
      p.2 ++ [Effect.sourceStart])

/-- The continuation of TtsTool.tsx's `handleGenerate` after
`await ai.models.generateContent(...)` resumes (source lines 225-258),
including its catch and finally blocks.  The source checks no liveness flag
at this resume point — the TtsTool component has no `isMountedRef` — so the
`mounted` argument is ignored. -/
def handleGenerateResume (_mounted : Bool) (s : ToolState) (resp : CloudResponse) :
    ToolState × List Effect :=
  match resp with
  | CloudResponse.reject msg =>
    ({ s with error := some (toolErrorMessage msg), isLoading := false }, [])
  | CloudResponse.textOnly _ =>
    let msg := toolErrorMessage
      "API error: The prompt is too long or triggers a filter for audio output."
    ({ s with error := some msg, isLoading := false }, [])
  | CloudResponse.empty =>
    let msg := toolErrorMessage
      "No audio data received. Try splitting your text into smaller parts."
    ({ s with error := some msg, isLoading := false }, [])
  | CloudResponse.audio bytes =>
    let s1 := { s with audioCtx := true }
    match decodeAudioData bytes 24000 1 with
    | none =>
      let msg := toolErrorMessage
        "RangeError: byte length of Int16Array should be a multiple of 2"
      ({ s1 with error := some msg, isLoading := false }, [])
    | some buf =>
      let s2 := { s1 with generatedAudio := some buf }
      let p := playBufferTool s2
      ({ p.1 with isLoading := false }, p.2)

/-- `handleGenerate` of TtsTool.tsx, run to completion against a given
backend response: the blank-script early return, the word-limit check, the
Loading/error/buffer resets plus `stopAudio()`, then either the platform
speech path or the cloud path (API-key gate, network call, resume). -/
def handleGenerate (s : ToolState) (resp : CloudResponse) :
    ToolState × List Effect :=
  if isBlank s.text then (s, [])
  else if MAX_WORDS < wordCount s.text then
    ({ s with error := some "max limit is 20k words" }, [])
  else
    let s1 := { s with isLoading := true, error := none, generatedAudio := none }
    let p := stopAudioTool s1
    match s.engine with
    | TtsEngine.system =>
      ({ p.1 with isLoading := false }, p.2 ++ [Effect.speakRequest s.text])
    | TtsEngine.gemini =>
      if s.envApiKey = false ∧ s.hasApiKey = false then
        let msg := "API Key is missing. Please select one or use System Voice."
        ({ p.1 with error := some msg, isLoading := false }, p.2)
      else
        let q := handleGenerateResume true p.1 resp
        (q.1, p.2 ++ [Effect.cloudRequest s.text s.selectedVoiceName] ++ q.2)

/-- The `disabled` predicate of the TtsTool generate button (source line
464): loading, playing, blank script, word limit exceeded, or missing cloud
credential. -/
def generateDisabled (s : ToolState) : Bool :=
  s.isLoading || s.isPlaying || isBlank s.text ||
    decide (MAX_WORDS < wordCount s.text) ||
    (s.engine == TtsEngine.gemini && !s.hasApiKey && !s.envApiKey)

/-- A click of the TtsTool generate button: a disabled button fires no
handler. -/
def generateButtonClick (s : ToolState) (resp : CloudResponse) :
    ToolState × List Effect :=
  if generateDisabled s then (s, []) else handleGenerate s resp

/-- A click of the inline player button of TtsTool.tsx (source line 434):
while playing it stops; otherwise it replays the retained buffer (gemini)
or regenerates (system).  The gemini replay with no retained buffer cannot
fire, because the player panel only renders when a buffer exists. -/
def playerButtonClick (s : ToolState) (resp : CloudResponse) :
    ToolState × List Effect :=
  if s.isPlaying then stopAudioTool s
  else
    match s.engine, s.generatedAudio with
    | TtsEngine.gemini, some _ => playBufferTool s
    | TtsEngine.gemini, none => (s, [])
    | TtsEngine.system, _ => handleGenerate s resp

/-- The component-local state of the AiTtsPreview card: script text (a prop),
selected voice, the status fields, the API-key capability flags, the audio
context and the active source node.  The preview retains no generated
buffer. -/
structure PreviewState where
  text : String
  selectedVoiceName : String
  isPlaying : Bool
  isLoading : Bool
  error : Option String
  hasApiKey : Bool
  envApiKey : Bool
  audioCtx : Bool
  sourceNode : Option NodeStatus
  deriving DecidableEq

/-- `stopAudio` of AiTtsPreview.tsx: try to stop the current source node
(the try/catch swallows the InvalidStateError of a never-started node),
clear the reference, and — only while the component is still mounted — mark
playback inactive.  The `mounted` argument is the value of
`isMountedRef.current`. -/
def stopAudioPrev (mounted : Bool) (s : PreviewState) :
    PreviewState × List Effect :=
  let p :=
    match s.sourceNode with
    | some n =>
      match nodeStop n with
      | Except.ok _ => ({ s with sourceNode := none }, [Effect.sourceStop])
      | Except.error _ => ({ s with sourceNode := none }, ([] : List Effect))
    | none => (s, ([] : List Effect))
  if mounted then ({ p.1 with isPlaying := false }, p.2) else p

/-- The `onended` callback AiTtsPreview installs on its source node: guarded
by the liveness flag. -/
def previewOnEnded (mounted : Bool) (s : PreviewState) : PreviewState :=
  if mounted then { s with isPlaying := false } else s

/-- The continuation of AiTtsPreview.tsx's `handlePlay` after the awaited
network call resumes (source lines 133-167), including the catch and finally
blocks.  Every state mutation after the resume — the success path, the
catch, and the finally — is guarded by `isMountedRef.current`, so with
`mounted = false` the whole continuation leaves the state untouched. -/
def handlePlayResume (mounted : Bool) (s : PreviewState) (resp : CloudResponse) :
    PreviewState × List Effect :=
  if mounted = false then (s, [])
  else
    match resp with
    | CloudResponse.reject msg =>
      let m := if msg = "" then "Failed to generate speech. Try a shorter segment." else msg
      ({ s with error := some m, isLoading := false }, [])
    | CloudResponse.textOnly _ =>
      let m := "The script is too long or triggers a safety filter for audio output."
      ({ s with error := some m, isLoading := false }, [])
    | CloudResponse.empty =>
      let m := "The script is too long or triggers a safety filter for audio output."
      ({ s with error := some m, isLoading := false }, [])
    | CloudResponse.audio bytes =>
      let s1 := { s with audioCtx := true }
      match decodeAudioData bytes 24000 1 with
      | none =>
        let m := "RangeError: byte length of Int16Array should be a multiple of 2"
        ({ s1 with error := some m, isLoading := false }, [])
      | some _ =>
        let s2 := { s1 with sourceNode := some NodeStatus.started }
        ({ s2 with isPlaying := true, isLoading := false }, [Effect.sourceStart])

/-- `handlePlay` of AiTtsPreview.tsx, run to completion against a given
backend response: the re-entrancy guard (`if (isLoading) return`), the
toggle (`if (isPlaying) { stopAudio(); return; }`), the word-limit and
credential gates, then Loading state, the network call and its resume. -/
def handlePlay (mounted : Bool) (s : PreviewState) (resp : CloudResponse) :
    PreviewState × List Effect :=
  if s.isLoading then (s, [])
  else if s.isPlaying then stopAudioPrev mounted s
  else if MAX_WORDS < wordCount s.text then
    ({ s with error := some "max limit is 20k words" }, [])
  else if s.envApiKey = false ∧ s.hasApiKey = false then
    ({ s with error := some "Authentication required for AI Preview." }, [])
  else
    let s1 := { s with isLoading := true, error := none }
    let q := handlePlayResume mounted s1 resp
    (q.1, Effect.cloudRequest s.text s.selectedVoiceName :: q.2)

/-- Whether an effect is a backend call (network synthesis or platform
speech). -/
def backendEffect : Effect → Bool
  | Effect.cloudRequest _ _ => true
  | Effect.speakRequest _ => true
  | _ => false

/-- C4: a script of exactly 20000 words passes the word-limit gate and the
dispatch reaches its backend (a cloud or platform-speech request is
emitted), in both controllers; a script of 20001 or more words fails with
exactly the word-limit error message, no other state change, and no effect
at all. -/
theorem c4_word_limit_boundary (s : ToolState) (p : PreviewState)
    (resp respP : CloudResponse)
    (hkey : s.engine = TtsEngine.gemini → (s.envApiKey || s.hasApiKey) = true)
    (hkeyP : (p.envApiKey || p.hasApiKey) = true)
    (hpL : p.isLoading = false) (hpP : p.isPlaying = false) :
    (wordCount s.text = 20000 →
      (handleGenerate s resp).2.any backendEffect = true) ∧
    (20001 ≤ wordCount s.text →
      handleGenerate s resp =
        ({ s with error := some "max limit is 20k words" }, [])) ∧
    (wordCount p.text = 20000 →
      (handlePlay true p respP).2.any backendEffect = true) ∧
    (20001 ≤ wordCount p.text →
      handlePlay true p respP =
        ({ p with error := some "max limit is 20k words" }, [])) := by
  have hnkeyP : ¬ (p.envApiKey = false ∧ p.hasApiKey = false) := by
    intro hcon
    rw [hcon.1, hcon.2] at hkeyP
    simp at hkeyP
  refine ⟨?_, ?_, ?_, ?_⟩
  · intro hwc
    have hnb : isBlank s.text = false :=
      not_isBlank_of_wordCount_pos s.text (by omega)
    have hnm : ¬ (MAX_WORDS < wordCount s.text) := by
      unfold MAX_WORDS; omega
    cases heng : s.engine with
    | system => simp [handleGenerate, hnb, hnm, heng, backendEffect]
    | gemini =>
      have hk := hkey heng
      have hnkey : ¬ (s.envApiKey = false ∧ s.hasApiKey = false) := by
        intro hcon
        rw [hcon.1, hcon.2] at hk
        simp at hk
      simp [handleGenerate, hnb, hnm, heng, hnkey, backendEffect]
  · intro hwc
    have hnb : isBlank s.text = false :=
      not_isBlank_of_wordCount_pos s.text (by omega)
    have hm : MAX_WORDS < wordCount s.text := by unfold MAX_WORDS; omega
    simp [handleGenerate, hnb, hm]
  · intro hwc
    have hnm : ¬ (MAX_WORDS < wordCount p.text) := by
      unfold MAX_WORDS; omega
    simp [handlePlay, hpL, hpP, hnm, hnkeyP, backendEffect]
  · intro hwc
    have hm : MAX_WORDS < wordCount p.text := by unfold MAX_WORDS; omega
    simp [handlePlay, hpL, hpP, hm]

/-- A script of n words: the word "w" repeated n times, each followed by a
single space. -/
def wordChars : ℕ → List Char
  | 0 => []
  | n + 1 => 'w' :: ' ' :: wordChars n

theorem wordCount_wordChars (n : ℕ) :
    wordCount (String.mk (wordChars n)) = n := by
  show (((wordChars n).splitOnP (fun c => c.isWhitespace)).filter
    (fun w => w ≠ [])).length = n
  induction n with
  | zero => rfl
  | succ k ih =>
    show ((('w' :: ' ' :: wordChars k).splitOnP (fun c => c.isWhitespace)).filter
      (fun w => w ≠ [])).length = k + 1
    rw [List.splitOnP_cons, if_neg (by decide), List.splitOnP_cons,
      if_pos (by decide), List.modifyHead_cons, List.filter_cons,
      show (decide ((['w'] : List Char) ≠ [])) = true from rfl, if_pos rfl,
      List.length_cons, ih]

/-- A TtsTool state holding a script of n words, cloud engine with an
environment key present. -/
def c4ToolState (n : ℕ) : ToolState :=
  { text := String.mk (wordChars n), engine := TtsEngine.gemini,
    selectedVoiceName := "Zephyr", isPlaying := false, isLoading := false,
    error := none, generatedAudio := none, hasApiKey := false,
    envApiKey := true, audioCtx := false, sourceNode := none }

/-- A preview state holding a script of n words, with a selected API key. -/
def c4PreviewState (n : ℕ) : PreviewState :=
  { text := String.mk (wordChars n), selectedVoiceName := "Puck",
    isPlaying := false, isLoading := false, error := none, hasApiKey := true,
    envApiKey := false, audioCtx := false, sourceNode := none }

/-- Witness for C4 at the boundary itself: the concrete 20000-word script
reaches the backend in both controllers, and the concrete 20001-word script
is rejected with exactly the word-limit error and no effects. -/
theorem c4_word_limit_boundary_witness :
    (handleGenerate (c4ToolState 20000) CloudResponse.empty).2.any
      backendEffect = true ∧
    handleGenerate (c4ToolState 20001) CloudResponse.empty =
      ({ c4ToolState 20001 with error := some "max limit is 20k words" }, []) ∧
    (handlePlay true (c4PreviewState 20000) CloudResponse.empty).2.any
      backendEffect = true ∧
    handlePlay true (c4PreviewState 20001) CloudResponse.empty =
      ({ c4PreviewState 20001 with
          error := some "max limit is 20k words" }, []) := by
  have hA := c4_word_limit_boundary (c4ToolState 20000) (c4PreviewState 20000)
    CloudResponse.empty CloudResponse.empty (fun _ => rfl) rfl rfl rfl
  have hB := c4_word_limit_boundary (c4ToolState 20001) (c4PreviewState 20001)
    CloudResponse.empty CloudResponse.empty (fun _ => rfl) rfl rfl rfl
  refine ⟨?_, ?_, ?_, ?_⟩
  · exact hA.1 (by simpa [c4ToolState] using wordCount_wordChars 20000)
  · exact hB.2.1 (by simp [c4ToolState, wordCount_wordChars])
  · exact hA.2.2.1 (by simpa [c4PreviewState] using wordCount_wordChars 20000)
  · exact hB.2.2.2 (by simp [c4PreviewState, wordCount_wordChars])

/-- C6: while a dispatch is outstanding (isLoading), invoking the dispatch
operation again is a no-op in both controllers: AiTtsPreview's handlePlay
returns before touching any state (`if (isLoading) return`), and TtsTool's
generate button is disabled while loading so no handler runs.  State, error
message and retained buffer are unchanged and no effect is emitted. -/
theorem c6_reentrancy_guard (s : PreviewState) (t : ToolState)
    (respS respT : CloudResponse) (hs : s.isLoading = true)
    (ht : t.isLoading = true) :
    handlePlay true s respS = (s, []) ∧
    generateButtonClick t respT = (t, []) := by
  constructor
  · unfold handlePlay
    rw [if_pos hs]
  · unfold generateButtonClick generateDisabled
    rw [ht]
    simp

/-- Witness for C6 at concrete loading states. -/
theorem c6_reentrancy_guard_witness :
    handlePlay true
      { text := "hi", selectedVoiceName := "Puck", isPlaying := false,
        isLoading := true, error := none, hasApiKey := true, envApiKey := false,
        audioCtx := true, sourceNode := none } CloudResponse.empty =
      ({ text := "hi", selectedVoiceName := "Puck", isPlaying := false,
         isLoading := true, error := none, hasApiKey := true, envApiKey := false,
         audioCtx := true, sourceNode := none }, []) ∧
    generateButtonClick
      { text := "hi", engine := TtsEngine.system, selectedVoiceName := "Zephyr",
        isPlaying := false, isLoading := true, error := none,
        generatedAudio := none, hasApiKey := false, envApiKey := false,
        audioCtx := false, sourceNode := none } CloudResponse.empty =
      ({ text := "hi", engine := TtsEngine.system, selectedVoiceName := "Zephyr",
         isPlaying := false, isLoading := true, error := none,
         generatedAudio := none, hasApiKey := false, envApiKey := false,
         audioCtx := false, sourceNode := none }, []) :=
  c6_reentrancy_guard _ _ CloudResponse.empty CloudResponse.empty rfl rfl

/-- C7: pressing the play trigger again while playing performs exactly the
stop operation: playback becomes inactive, the preview's source reference is
cleared, and the emitted effects only stop output — no new source is
started and no synthesis request is issued.  Holds for AiTtsPreview's
handlePlay and for TtsTool's inline player button. -/
theorem c7_toggle_stop (s : PreviewState) (t : ToolState)
    (respS respT : CloudResponse) (hsP : s.isPlaying = true)
    (hsL : s.isLoading = false) (htP : t.isPlaying = true) :
    handlePlay true s respS = stopAudioPrev true s ∧
    (handlePlay true s respS).1.isPlaying = false ∧
    (handlePlay true s respS).1.sourceNode = none ∧
    (handlePlay true s respS).2.all isStopEffect = true ∧
    playerButtonClick t respT = stopAudioTool t ∧
    (playerButtonClick t respT).1.isPlaying = false ∧
    (playerButtonClick t respT).2.all isStopEffect = true := by
  have hp : handlePlay true s respS = stopAudioPrev true s := by
    unfold handlePlay
    rw [hsL, if_neg (by simp), if_pos hsP]
  have hb : playerButtonClick t respT = stopAudioTool t := by
    unfold playerButtonClick
    rw [if_pos htP]
  refine ⟨hp, ?_, ?_, ?_, hb, ?_, ?_⟩
  · rw [hp]
    cases hsn : s.sourceNode with
    | none => simp [stopAudioPrev, hsn]
    | some n => cases n <;> simp [stopAudioPrev, hsn, nodeStop]
  · rw [hp]
    cases hsn : s.sourceNode with
    | none => simp [stopAudioPrev, hsn]
    | some n => cases n <;> simp [stopAudioPrev, hsn, nodeStop]
  · rw [hp]
    cases hsn : s.sourceNode with
    | none => simp [stopAudioPrev, hsn]
    | some n => cases n <;> simp [stopAudioPrev, hsn, nodeStop, isStopEffect]
  · rw [hb]
    cases heng : t.engine with
    | system => simp [stopAudioTool, heng]
    | gemini =>
      cases hsn : t.sourceNode with
      | none => simp [stopAudioTool, heng, hsn]
      | some n => cases n <;> simp [stopAudioTool, heng, hsn, nodeStop]
  · rw [hb]
    cases heng : t.engine with
    | system => simp [stopAudioTool, heng, isStopEffect]
    | gemini =>
      cases hsn : t.sourceNode with
      | none => simp [stopAudioTool, heng, hsn]
      | some n => cases n <;> simp [stopAudioTool, heng, hsn, nodeStop, isStopEffect]

/-- Witness for C7 at concrete playing states. -/
theorem c7_toggle_stop_witness :
    handlePlay true
      { text := "hi", selectedVoiceName := "Puck", isPlaying := true,
        isLoading := false, error := none, hasApiKey := true, envApiKey := false,
        audioCtx := true, sourceNode := some NodeStatus.started }
      CloudResponse.empty =
      stopAudioPrev true
        { text := "hi", selectedVoiceName := "Puck", isPlaying := true,
          isLoading := false, error := none, hasApiKey := true,
          envApiKey := false, audioCtx := true,
          sourceNode := some NodeStatus.started } ∧
    (handlePlay true
      { text := "hi", selectedVoiceName := "Puck", isPlaying := true,
        isLoading := false, error := none, hasApiKey := true, envApiKey := false,
        audioCtx := true, sourceNode := some NodeStatus.started }
      CloudResponse.empty).1.isPlaying = false ∧
    (handlePlay true
      { text := "hi", selectedVoiceName := "Puck", isPlaying := true,
        isLoading := false, error := none, hasApiKey := true, envApiKey := false,
        audioCtx := true, sourceNode := some NodeStatus.started }
      CloudResponse.empty).1.sourceNode = none ∧
    (handlePlay true
      { text := "hi", selectedVoiceName := "Puck", isPlaying := true,
        isLoading := false, error := none, hasApiKey := true, envApiKey := false,
        audioCtx := true, sourceNode := some NodeStatus.started }
      CloudResponse.empty).2.all isStopEffect = true ∧
    playerButtonClick
      { text := "hi", engine := TtsEngine.gemini, selectedVoiceName := "Zephyr",
        isPlaying := true, isLoading := false, error := none,
        generatedAudio := none, hasApiKey := true, envApiKey := false,
        audioCtx := true, sourceNode := some NodeStatus.started }
      CloudResponse.empty =
      stopAudioTool
        { text := "hi", engine := TtsEngine.gemini, selectedVoiceName := "Zephyr",
          isPlaying := true, isLoading := false, error := none,
          generatedAudio := none, hasApiKey := true, envApiKey := false,
          audioCtx := true, sourceNode := some NodeStatus.started } ∧
    (playerButtonClick
      { text := "hi", engine := TtsEngine.gemini, selectedVoiceName := "Zephyr",
        isPlaying := true, isLoading := false, error := none,
        generatedAudio := none, hasApiKey := true, envApiKey := false,
        audioCtx := true, sourceNode := some NodeStatus.started }
      CloudResponse.empty).1.isPlaying = false ∧
    (playerButtonClick
      { text := "hi", engine := TtsEngine.gemini, selectedVoiceName := "Zephyr",
        isPlaying := true, isLoading := false, error := none,
        generatedAudio := none, hasApiKey := true, envApiKey := false,
        audioCtx := true, sourceNode := some NodeStatus.started }
      CloudResponse.empty).2.all isStopEffect = true :=
  c7_toggle_stop _ _ CloudResponse.empty CloudResponse.empty rfl rfl rfl

theorem stopAudioPrev_none (x : PreviewState) (hx : x.sourceNode = none) :
    stopAudioPrev true x = ({ x with isPlaying := false }, []) := by
  simp [stopAudioPrev, hx]

theorem previewState_set_isPlaying_self (x : PreviewState)
    (hx : x.isPlaying = false) : { x with isPlaying := false } = x := by
  cases x
  simp_all

theorem stopAudioTool_gemini_state (t : ToolState)
    (h : t.engine = TtsEngine.gemini) :
    (stopAudioTool t).1 = { t with sourceNode := none, isPlaying := false } := by
  cases t with
  | mk tx eng vn ip il er ga hk ek ac sn =>
    cases eng with
    | system => simp at h
    | gemini =>
      cases sn with
      | none => rfl
      | some n => cases n <;> rfl

theorem stopAudioTool_isPlaying_false (t : ToolState) :
    (stopAudioTool t).1.isPlaying = false := by
  cases t with
  | mk tx eng vn ip il er ga hk ek ac sn =>
    cases eng with
    | gemini =>
      cases sn with
      | none => rfl
      | some n => cases n <;> rfl
    | system => rfl

theorem stopAudioTool_idem (t : ToolState) :
    (stopAudioTool (stopAudioTool t).1).1 = (stopAudioTool t).1 := by
  cases t with
  | mk tx eng vn ip il er ga hk ek ac sn =>
    cases eng with
    | gemini =>
      cases sn with
      | none => rfl
      | some n => cases n <;> rfl
    | system => rfl

theorem stopAudioTool_idem_effects (t : ToolState) :
    (stopAudioTool (stopAudioTool t).1).2.all isStopEffect = true := by
  cases t with
  | mk tx eng vn ip il er ga hk ek ac sn =>
    cases eng with
    | gemini =>
      cases sn with
      | none => rfl
      | some n => cases n <;> rfl
    | system => rfl

theorem stopAudioTool_effects (t : ToolState) :
    (stopAudioTool t).2.all isStopEffect = true := by
  cases t with
  | mk tx eng vn ip il er ga hk ek ac sn =>
    cases eng with
    | gemini =>
      cases sn with
      | none => rfl
      | some n => cases n <;> rfl
    | system => rfl

/-- C9: stopAudio never raises for any caller state, in both controllers —
the InvalidStateError of stopping a never-started node is swallowed by the
try/catch (the created-node conjuncts exercise that path).  The preview's
stopAudio always clears the source reference and synchronously marks
playback inactive, stopping with no source is a safe no-op that only clears
the playing flag, and a redundant second call returns the same state with no
further effect.  TtsTool's stopAudio likewise marks playback inactive,
clears the source reference on its cloud-engine branch (its system branch
halts the platform engine instead, which owns that session), a redundant
second call leaves the state unchanged and emits only stop effects, and
every effect either call emits is a stop effect. -/
theorem c9_stop_idempotent_safe (s : PreviewState) (t : ToolState) :
    (stopAudioPrev true s).1.sourceNode = none ∧
    (stopAudioPrev true s).1.isPlaying = false ∧
    stopAudioPrev true (stopAudioPrev true s).1 = ((stopAudioPrev true s).1, []) ∧
    (s.sourceNode = none →
      stopAudioPrev true s = ({ s with isPlaying := false }, [])) ∧
    (s.sourceNode = some NodeStatus.created →
      stopAudioPrev true s =
        ({ s with sourceNode := none, isPlaying := false }, [])) ∧
    (stopAudioTool t).1.isPlaying = false ∧
    (t.engine = TtsEngine.gemini → (stopAudioTool t).1.sourceNode = none) ∧
    (stopAudioTool (stopAudioTool t).1).1 = (stopAudioTool t).1 ∧
    (stopAudioTool (stopAudioTool t).1).2.all isStopEffect = true ∧
    (stopAudioTool t).2.all isStopEffect = true ∧
    (t.engine = TtsEngine.gemini → t.sourceNode = none →
      stopAudioTool t = ({ t with isPlaying := false }, [])) ∧
    (t.engine = TtsEngine.gemini → t.sourceNode = some NodeStatus.created →
      stopAudioTool t =
        ({ t with sourceNode := none, isPlaying := false }, [])) := by
  have hnone : (stopAudioPrev true s).1.sourceNode = none := by
    cases hsn : s.sourceNode with
    | none => simp [stopAudioPrev, hsn]
    | some n => cases n <;> simp [stopAudioPrev, hsn, nodeStop]
  have hplay : (stopAudioPrev true s).1.isPlaying = false := by
    cases hsn : s.sourceNode with
    | none => simp [stopAudioPrev, hsn]
    | some n => cases n <;> simp [stopAudioPrev, hsn, nodeStop]
  refine ⟨hnone, hplay, ?_, ?_, ?_, stopAudioTool_isPlaying_false t, ?_,
    stopAudioTool_idem t, stopAudioTool_idem_effects t, stopAudioTool_effects t,
    ?_, ?_⟩
  · rw [stopAudioPrev_none _ hnone, previewState_set_isPlaying_self _ hplay]
  · intro hsn
    exact stopAudioPrev_none s hsn
  · intro hsn
    simp [stopAudioPrev, hsn, nodeStop]
  · intro h
    rw [stopAudioTool_gemini_state t h]
  · intro h hsn
    simp [stopAudioTool, h, hsn]
  · intro h hsn
    simp [stopAudioTool, h, hsn, nodeStop]

/-- Witness for C9's conditional clauses: a preview state with no source is
a safe no-op, and a tool state whose node was created but never started (the
throwing stop) is still stopped safely with the reference cleared. -/
theorem c9_stop_idempotent_safe_witness :
    stopAudioPrev true
      { text := "hi", selectedVoiceName := "Puck", isPlaying := true,
        isLoading := false, error := none, hasApiKey := true, envApiKey := false,
        audioCtx := true, sourceNode := none } =
      ({ text := "hi", selectedVoiceName := "Puck", isPlaying := false,
         isLoading := false, error := none, hasApiKey := true,
         envApiKey := false, audioCtx := true, sourceNode := none }, []) ∧
    stopAudioTool
      { text := "hi", engine := TtsEngine.gemini, selectedVoiceName := "Zephyr",
        isPlaying := true, isLoading := false, error := none,
        generatedAudio := none, hasApiKey := true, envApiKey := false,
        audioCtx := true, sourceNode := some NodeStatus.created } =
      ({ text := "hi", engine := TtsEngine.gemini, selectedVoiceName := "Zephyr",
         isPlaying := false, isLoading := false, error := none,
         generatedAudio := none, hasApiKey := true, envApiKey := false,
         audioCtx := true, sourceNode := none }, []) := by
  obtain ⟨-, -, -, h4, -, -, -, -, -, -, -, h12⟩ := c9_stop_idempotent_safe
    { text := "hi", selectedVoiceName := "Puck", isPlaying := true,
      isLoading := false, error := none, hasApiKey := true, envApiKey := false,
      audioCtx := true, sourceNode := none }
    { text := "hi", engine := TtsEngine.gemini, selectedVoiceName := "Zephyr",
      isPlaying := true, isLoading := false, error := none,
      generatedAudio := none, hasApiKey := true, envApiKey := false,
      audioCtx := true, sourceNode := some NodeStatus.created }
  exact ⟨by simpa using h4 rfl, by simpa using h12 rfl rfl⟩

/-- C10: a script that is empty or all whitespace makes handleGenerate
return immediately as a silent no-op: no error is set, the state does not
enter Loading, the retained buffer is untouched, and no backend call is
made. -/
theorem c10_blank_script_noop (s : ToolState) (resp : CloudResponse)
    (h : isBlank s.text = true) :
    handleGenerate s resp = (s, []) := by
  unfold handleGenerate
  rw [h]
  simp

/-- Witness for C10 at a whitespace-only script. -/
theorem c10_blank_script_noop_witness :
    handleGenerate
      { text := "   ", engine := TtsEngine.gemini, selectedVoiceName := "Zephyr",
        isPlaying := false, isLoading := false, error := none,
        generatedAudio := none, hasApiKey := true, envApiKey := true,
        audioCtx := false, sourceNode := none } CloudResponse.empty =
      ({ text := "   ", engine := TtsEngine.gemini, selectedVoiceName := "Zephyr",
         isPlaying := false, isLoading := false, error := none,
         generatedAudio := none, hasApiKey := true, envApiKey := true,
         audioCtx := false, sourceNode := none }, []) :=
  c10_blank_script_noop _ CloudResponse.empty (by decide)

/-- C8 (counterexample): the TtsTool component has no liveness flag: its
continuation after the awaited network call mutates state even when the
component is torn down (mounted = false) — here an empty backend response
sets the error message on a torn-down component. -/
theorem c8_liveness_counterexample :
    (handleGenerateResume false
      { text := "hi", engine := TtsEngine.gemini, selectedVoiceName := "Zephyr",
        isPlaying := false, isLoading := true, error := none,
        generatedAudio := none, hasApiKey := true, envApiKey := true,
        audioCtx := true, sourceNode := none } CloudResponse.empty).1 ≠
      { text := "hi", engine := TtsEngine.gemini, selectedVoiceName := "Zephyr",
        isPlaying := false, isLoading := true, error := none,
        generatedAudio := none, hasApiKey := true, envApiKey := true,
        audioCtx := true, sourceNode := none } := by
  intro h
  have he := congrArg ToolState.error h
  simp [handleGenerateResume] at he

/-- C8 (amended): the liveness guard exists and works in the AiTtsPreview
component — its flag is set false at teardown and checked before every
state mutation following an asynchronous resume, so a completion, error or
finally callback arriving after teardown mutates no state — while the
TtsTool component performs its post-resume state mutations without any such
check (see the counterexample). -/
theorem c8_liveness_amended (s : PreviewState) (resp : CloudResponse) :
    handlePlayResume false s resp = (s, []) ∧ previewOnEnded false s = s := by
  constructor
  · unfold handlePlayResume
    rw [if_pos rfl]
  · rfl
